import Mathlib

/-!
Verification of the evaluation core of rinha-ts (src/types.ts, src/interpreter.ts),
a tree-walking interpreter for a small expression language written in TypeScript.

The embedding mirrors the source closely.  TypeScript objects of type `Env`
(`{ objects: Record<string, Value> }`) are mutable heap objects passed by
reference; closures store a reference to such an object, and the `Let` case of
`interpret` writes into an environment object after closures may already hold a
reference to it.  To be faithful to that aliasing, environments are modelled as
addresses (`Nat`) into an explicit store (`St.heap`), and `cloneEnv` /
`setEnvKey` act on the store.  A record `Record<string, Value>` is modelled as
an association list read through first-match lookup; assignment conses a new
entry, which is observationally identical to the JS record under lookup.

`console.log` output is accumulated in `St.output`, one line per `Print`.

JS numbers: every numeric value a program can produce is an integer (integer
literals; `+ - *` preserve integers; `Math.floor` on `/` and `%` yields
integers), so numbers are modelled as `Int`.  `Math.floor(a / b)` on integers
is `Int.fdiv` and `Math.floor(a % b)` is `Int.tmod` (JS `%` is the truncated
remainder, already an integer, so `Math.floor` is the identity on it) — both
for `b ≠ 0`; the division-by-zero behaviour of JS (`NaN`/`Infinity`) is outside
the integer model and outside every claim considered here.

The interpreter is given explicit fuel so it is a total, kernel-executable
function; `Error.outOfFuel` is an artifact of the model, distinct from every
error the source can throw.
-/

namespace Rinha

/-- Binary operators of the language (src/types.ts, `BinaryOp`). -/
inductive BinaryOp where
  | add | sub | mul | div | rem | eq | neq | lt | gt | lte | gte | and | or
deriving DecidableEq

/-- AST terms (src/types.ts, `Term`).  The `location` fields of the source AST
are never read by the evaluator and are omitted.  Constructor names follow the
source `kind` tags, lowercased (`ifE`/`letE` avoid Lean keywords). -/
inductive Term where
  | str (value : String)
  | bool (value : Bool)
  | int (value : Int)
  | ifE (condition then_ otherwise : Term)
  | tuple (first second : Term)
  | first (value : Term)
  | second (value : Term)
  | binary (lhs : Term) (op : BinaryOp) (rhs : Term)
  | print (value : Term)
  | var (text : String)
  | letE (name : String) (value : Term) (next : Term)
  | call (callee : Term) (arguments : List Term)
  | function (parameters : List String) (value : Term)

/-- A function value (src/interpreter.ts, `Closure`): body, parameter names and
a reference to the captured environment object (an address into the store). -/
structure Closure where
  body : Term
  parameters : List String
  env : Nat

/-- Runtime values (src/interpreter.ts, `Value`). -/
inductive Value where
  | bool (b : Bool)
  | str (s : String)
  | num (n : Int)
  | closure (c : Closure)
  | tuple (fst snd : Value)

/-- Errors thrown by the interpreter.  `typeMismatch t` models
`throw new Error("not a " + t)`, `unboundVariable n` models
`throw new Error("cannot find variable " + n)`, `arityMismatch e a` models the
arity error of the `Call` case.  `outOfFuel` is an artifact of the fuel-indexed
model and corresponds to no source error. -/
inductive Error where
  | typeMismatch (type : String)
  | unboundVariable (name : String)
  | arityMismatch (expected actual : Nat)
  | outOfFuel
deriving DecidableEq

/-- The message carried by the thrown `Error` object in the source. -/
def errorMessage : Error → String
  | .typeMismatch t => "not a " ++ t
  | .unboundVariable n => "cannot find variable " ++ n
  | .arityMismatch e a =>
      "expected " ++ toString e ++ " arguments but instead got " ++ toString a
  | .outOfFuel => "out of fuel"

/-- A `Record<string, Value>`: association list, first match wins on lookup. -/
abbrev EnvRecord := List (String × Value)

/-- Lookup `r[k]` in a record (returns `none` where JS yields `undefined`). -/
def recGet : EnvRecord → String → Option Value
  | [], _ => none
  | (k, v) :: r, n => if k = n then some v else recGet r n

/-- Assignment `r[k] = v`: the new entry shadows any older one. -/
def recSet (r : EnvRecord) (k : String) (v : Value) : EnvRecord :=
  (k, v) :: r

/-- The mutable part of the JS runtime the interpreter touches: the heap of
environment objects (addressed by index) and the `console.log` output. -/
structure St where
  heap : List EnvRecord
  output : List String

/-- The environment object stored at address `a`. -/
def getEnv (st : St) (a : Nat) : EnvRecord :=
  st.heap.getD a []

/-- `cloneEnv` (src/interpreter.ts): allocate a fresh environment object whose
record is a shallow copy of the one at `a`; returns the fresh address. -/
def cloneEnv (st : St) (a : Nat) : Nat × St :=
  (st.heap.length, ⟨st.heap ++ [getEnv st a], st.output⟩)

/-- In-place mutation `env.objects[k] = v` of the object at address `a`. -/
def setEnvKey (st : St) (a : Nat) (k : String) (v : Value) : St :=
  ⟨st.heap.set a (recSet (getEnv st a) k v), st.output⟩

/-- Result of interpreting one term: a value, or a thrown error. -/
abbrev Result := Except Error Value

/-- `assertInt` (src/interpreter.ts line 43). -/
def assertInt : Value → Except Error Int
  | .num n => .ok n
  | _ => .error (.typeMismatch "int")

/-- `assertTuple` (src/interpreter.ts line 46). -/
def assertTuple : Value → Except Error (Value × Value)
  | .tuple f s => .ok (f, s)
  | _ => .error (.typeMismatch "tuple")

/-- `assertClosure` (src/interpreter.ts line 49). -/
def assertClosure : Value → Except Error Closure
  | .closure c => .ok c
  | _ => .error (.typeMismatch "closure")

/-- `assertBool` (src/interpreter.ts line 52).  Note the source passes the
string `"closure"` to `typeMismatch`, so the thrown message is
`not a closure`. -/
def assertBool : Value → Except Error Bool
  | .bool b => .ok b
  | _ => .error (.typeMismatch "closure")

/-- `castToString` (src/interpreter.ts line 55): numbers render to decimal
text, strings to themselves, everything else throws. -/
def castToString : Value → Except Error String
  | .num n => .ok (toString n)
  | .str s => .ok s
  | _ => .error (.typeMismatch "string or int")

/-- `isEqual` (src/interpreter.ts line 58). -/
def isEqual : Value → Value → Except Error Bool
  | .num a, .num b => .ok (a == b)
  | .str a, .str b => .ok (a == b)
  | .bool a, .bool b => .ok (a == b)
  | _, _ => .error (.typeMismatch "number or string or boolean")

/-- `interpretBinary` (src/interpreter.ts line 70).  `Div` is
`Math.floor(a / b)` = `Int.fdiv` and `Rem` is `Math.floor(a % b)` =
`Int.tmod` on integer operands with nonzero divisor (see the header note). -/
def interpretBinary (left right : Value) (op : BinaryOp) : Except Error Value :=
  match op with
  | .add =>
      match left, right with
      | .num a, .num b => .ok (.num (a + b))
      | _, _ => do
          let leftVal ← castToString left
          let rightVal ← castToString right
          .ok (.str (leftVal ++ rightVal))
  | .eq => do
      let value ← isEqual left right
      .ok (.bool value)
  | .neq => do
      let value ← isEqual left right
      .ok (.bool (!value))
  | .sub => do
      let leftVal ← assertInt left
      let rightVal ← assertInt right
      .ok (.num (leftVal - rightVal))
  | .mul => do
      let leftVal ← assertInt left
      let rightVal ← assertInt right
      .ok (.num (leftVal * rightVal))
  | .div => do
      let leftVal ← assertInt left
      let rightVal ← assertInt right
      .ok (.num (Int.fdiv leftVal rightVal))
  | .rem => do
      let leftVal ← assertInt left
      let rightVal ← assertInt right
      .ok (.num (Int.tmod leftVal rightVal))
  | .lt => do
      let leftVal ← assertInt left
      let rightVal ← assertInt right
      .ok (.bool (decide (leftVal < rightVal)))
  | .gt => do
      let leftVal ← assertInt left
      let rightVal ← assertInt right
      .ok (.bool (decide (leftVal > rightVal)))
  | .lte => do
      let leftVal ← assertInt left
      let rightVal ← assertInt right
      .ok (.bool (decide (leftVal ≤ rightVal)))
  | .gte => do
      let leftVal ← assertInt left
      let rightVal ← assertInt right
      .ok (.bool (decide (leftVal ≥ rightVal)))
  | .and => do
      let leftVal ← assertBool left
      let rightVal ← assertBool right
      .ok (.bool (leftVal && rightVal))
  | .or => do
      let leftVal ← assertBool left
      let rightVal ← assertBool right
      .ok (.bool (leftVal || rightVal))

/-- `showValue` (src/interpreter.ts line 142). -/
def showValue : Value → String
  | .num n => toString n
  | .bool b => if b then "true" else "false"
  | .str s => s
  | .closure _ => "<#closure>"
  | .tuple f s => "(" ++ showValue f ++ "," ++ showValue s ++ ")"

/-- The parameter-binding loop of the `Call` case (src/interpreter.ts lines
215–217): for each parameter in order, evaluate the matching argument in the
caller's environment `callerEnv` and assign it into the function environment
object at `fenv`.  `recur` is the interpreter at the current fuel. -/
def bindArgs (recur : Term → Nat → St → Result × St) (callerEnv fenv : Nat) :
    List String → List Term → St → Option Error × St
  | [], _, st => (none, st)
  | _, [], st => (none, st)
  | p :: ps, a :: args, st =>
      match recur a callerEnv st with
      | (.error err, st1) => (some err, st1)
      | (.ok v, st1) => bindArgs recur callerEnv fenv ps args (setEnvKey st1 fenv p v)

/-- One layer of `interpret` (src/interpreter.ts line 152), with `recur`
standing for the recursive calls.  Each case follows the source case of the
same `kind` tag. -/
def interpretStep (recur : Term → Nat → St → Result × St) :
    Term → Nat → St → Result × St
  | .str s, _, st => (.ok (.str s), st)
  | .bool b, _, st => (.ok (.bool b), st)
  | .int n, _, st => (.ok (.num n), st)
  | .ifE c t e, env, st =>
      match recur c env st with
      | (.error err, st1) => (.error err, st1)
      | (.ok condition, st1) =>
          match assertBool condition with
          | .error err => (.error err, st1)
          | .ok b => recur (if b then t else e) env st1
  | .tuple t1 t2, env, st =>
      match recur t1 env st with
      | (.error err, st1) => (.error err, st1)
      | (.ok fst, st1) =>
          match recur t2 env st1 with
          | (.error err, st2) => (.error err, st2)
          | (.ok snd, st2) => (.ok (.tuple fst snd), st2)
  | .first t, env, st =>
      match recur t env st with
      | (.error err, st1) => (.error err, st1)
      | (.ok v, st1) =>
          match assertTuple v with
          | .error err => (.error err, st1)
          | .ok (f, _) => (.ok f, st1)
  | .second t, env, st =>
      match recur t env st with
      | (.error err, st1) => (.error err, st1)
      | (.ok v, st1) =>
          match assertTuple v with
          | .error err => (.error err, st1)
          | .ok (_, s) => (.ok s, st1)
  | .binary lhs op rhs, env, st =>
      match recur lhs env st with
      | (.error err, st1) => (.error err, st1)
      | (.ok left, st1) =>
          match recur rhs env st1 with
          | (.error err, st2) => (.error err, st2)
          | (.ok right, st2) => (interpretBinary left right op, st2)
  | .print t, env, st =>
      match recur t env st with
      | (.error err, st1) => (.error err, st1)
      | (.ok v, st1) => (.ok v, ⟨st1.heap, st1.output ++ [showValue v]⟩)
  | .var n, env, st =>
      match recGet (getEnv st env) n with
      | some v => (.ok v, st)
      | none => (.error (.unboundVariable n), st)
  | .letE n value next, env, st =>
      let (a, st1) := cloneEnv st env
      match recur value a st1 with
      | (.error err, st2) => (.error err, st2)
      | (.ok v, st2) => recur next a (setEnvKey st2 a n v)
  | .call callee args, env, st =>
      match recur callee env st with
      | (.error err, st1) => (.error err, st1)
      | (.ok f, st1) =>
          match assertClosure f with
          | .error err => (.error err, st1)
          | .ok c =>
              if c.parameters.length ≠ args.length then
                (.error (.arityMismatch c.parameters.length args.length), st1)
              else
                let (fenv, st2) := cloneEnv st1 c.env
                match bindArgs recur env fenv c.parameters args st2 with
                | (some err, st3) => (.error err, st3)
                | (none, st3) => recur c.body fenv st3
  | .function params body, env, st =>
      (.ok (.closure ⟨body, params, env⟩), st)

/-- `interpret` (src/interpreter.ts line 152), fuel-indexed: each recursive
call of the source costs one unit of fuel. -/
def interpret : Nat → Term → Nat → St → Result × St
  | 0, _, _, st => (.error .outOfFuel, st)
  | fuel + 1, t, env, st => interpretStep (interpret fuel) t env st

/-- `interpretFile` (src/interpreter.ts line 34): a fresh empty environment
object (address 0) in an otherwise empty world. -/
def interpretFile (fuel : Nat) (t : Term) : Result × St :=
  interpret fuel t 0 ⟨[[]], []⟩

theorem interpret_succ (fuel : Nat) (t : Term) (env : Nat) (st : St) :
    interpret (fuel + 1) t env st = interpretStep (interpret fuel) t env st := rfl

/-! ### Kind predicates, used to state the claims -/

/-- The value is a boolean. -/
def isBool : Value → Bool
  | .bool _ => true
  | _ => false

/-- The value is a closure. -/
def isClosure : Value → Bool
  | .closure _ => true
  | _ => false

/-- The value is a number or a string — the kinds `castToString` accepts. -/
def isAddOperand : Value → Bool
  | .num _ => true
  | .str _ => true
  | _ => false

/-- Both values have the same kind among number, string and boolean. -/
def sameScalarKind : Value → Value → Bool
  | .num _, .num _ => true
  | .str _, .str _ => true
  | .bool _, .bool _ => true
  | _, _ => false

/-! ### Floor division: `Int.fdiv` is the floor of the rational quotient -/

theorem fdiv_neg_neg (a b : Int) : Int.fdiv (-a) (-b) = Int.fdiv a b := by
  cases a with
  | ofNat m =>
    cases m with
    | zero =>
        show Int.fdiv 0 (-b) = Int.fdiv 0 b
        simp [Int.zero_fdiv]
    | succ m =>
      cases b with
      | ofNat n => cases n with
        | zero =>
            show Int.fdiv (Int.negSucc m) (Int.ofNat 0) = Int.fdiv (Int.ofNat (m+1)) (Int.ofNat 0)
            simp [Int.fdiv]
        | succ n =>
            show Int.fdiv (Int.negSucc m) (Int.negSucc n)
                = Int.fdiv (Int.ofNat (m+1)) (Int.ofNat (n+1))
            simp [Int.fdiv]
      | negSucc n =>
          show Int.fdiv (Int.negSucc m) (Int.ofNat (n+1))
              = Int.fdiv (Int.ofNat (m+1)) (Int.negSucc n)
          simp [Int.fdiv]
  | negSucc m =>
    cases b with
    | ofNat n => cases n with
      | zero =>
          show Int.fdiv (Int.ofNat (m+1)) (Int.ofNat 0) = Int.fdiv (Int.negSucc m) (Int.ofNat 0)
          simp [Int.fdiv]
      | succ n =>
          show Int.fdiv (Int.ofNat (m+1)) (Int.negSucc n)
              = Int.fdiv (Int.negSucc m) (Int.ofNat (n+1))
          simp [Int.fdiv]
    | negSucc n =>
        show Int.fdiv (Int.ofNat (m+1)) (Int.ofNat (n+1))
            = Int.fdiv (Int.negSucc m) (Int.negSucc n)
        simp [Int.fdiv]

theorem fdiv_eq_floor_of_pos (a : Int) {b : Int} (hb : 0 < b) :
    Int.fdiv a b = ⌊(a : ℚ) / (b : ℚ)⌋ := by
  rw [Int.fdiv_eq_ediv a hb.le]
  have h1 : ((b.toNat : ℤ)) = b := Int.toNat_of_nonneg hb.le
  have h2 : ((b.toNat : ℚ)) = (b : ℚ) := by exact_mod_cast h1
  calc a / b = a / ((b.toNat : ℤ)) := by rw [h1]
    _ = ⌊((a : ℚ) / (b.toNat : ℚ))⌋ := (Rat.floor_intCast_div_natCast a b.toNat).symm
    _ = ⌊(a : ℚ) / (b : ℚ)⌋ := by rw [h2]

theorem fdiv_eq_floor (a : Int) {b : Int} (hb : b ≠ 0) :
    Int.fdiv a b = ⌊(a : ℚ) / (b : ℚ)⌋ := by
  rcases lt_or_gt_of_ne hb with h | h
  · rw [← fdiv_neg_neg a b, fdiv_eq_floor_of_pos (-a) (by omega : (0:ℤ) < -b)]
    congr 1
    push_cast
    rw [neg_div_neg_eq]
  · exact fdiv_eq_floor_of_pos a h

/-- Truncation toward zero of the rational quotient `a / b`: floor for a
nonnegative quotient, ceiling for a negative one. -/
def truncQuot (a b : Int) : Int :=
  if 0 ≤ (a : ℚ) / (b : ℚ) then ⌊(a : ℚ) / (b : ℚ)⌋ else ⌈(a : ℚ) / (b : ℚ)⌉

theorem tdiv_eq_trunc_pos (a : Int) {b : Int} (hb : 0 < b) :
    Int.tdiv a b = truncQuot a b := by
  rcases le_or_lt 0 a with ha | ha
  · rw [truncQuot, if_pos (by positivity)]
    rw [← Int.fdiv_eq_tdiv ha hb.le, fdiv_eq_floor a hb.ne.symm]
  · have hq : (a : ℚ) / (b : ℚ) < 0 := by
      apply div_neg_of_neg_of_pos
      · exact_mod_cast ha
      · exact_mod_cast hb
    rw [truncQuot, if_neg (not_le.mpr hq)]
    have h1 : Int.tdiv a b = -Int.tdiv (-a) b := by
      rw [Int.neg_tdiv, neg_neg]
    rw [h1, ← Int.fdiv_eq_tdiv (by omega) hb.le, fdiv_eq_floor (-a) hb.ne.symm]
    rw [show ((-a : Int) : ℚ) / (b : ℚ) = -((a : ℚ) / (b : ℚ)) by push_cast; ring]
    rw [Int.floor_neg, neg_neg]

theorem tdiv_eq_trunc (a : Int) {b : Int} (hb : b ≠ 0) :
    Int.tdiv a b = truncQuot a b := by
  rcases lt_or_gt_of_ne hb with h | h
  · have h1 : Int.tdiv a b = Int.tdiv (-a) (-b) := by
      rw [Int.tdiv_neg, Int.neg_tdiv, neg_neg]
    have h2 : truncQuot a b = truncQuot (-a) (-b) := by
      rw [truncQuot, truncQuot,
        show ((-a : Int) : ℚ) / ((-b : Int) : ℚ) = (a : ℚ) / (b : ℚ) by
          push_cast; rw [neg_div_neg_eq]]
    rw [h1, h2]
    exact tdiv_eq_trunc_pos (-a) (by omega)
  · exact tdiv_eq_trunc_pos a h

/-! ### Claims C3 and C4: `Rem` and `Div` -/

/-- C3 counterexample: the claim `Rem(a,b) = a - b*Div(a,b)` fails at
`a = -7, b = 2`: the code yields `Rem(-7,2) = -1` and `Div(-7,2) = -4`, but
`a - b*Div(a,b) = -7 - 2*(-4) = 1 ≠ -1`. -/
theorem C3_counterexample :
    interpretBinary (.num (-7)) (.num 2) .rem = .ok (.num (-1))
    ∧ interpretBinary (.num (-7)) (.num 2) .div = .ok (.num (-4))
    ∧ ((-1 : Int) ≠ -7 - 2 * (-4)) :=
  ⟨rfl, rfl, by decide⟩

/-- C3 (amended): for number operands with `b ≠ 0`, `Rem` yields the
truncation-toward-zero remainder: `Rem(a,b) = a - b * truncQuot a b`, where
`truncQuot a b` is the real quotient rounded toward zero — not
`a - b * Div(a,b)` with the flooring `Div` (the two differ exactly when the
operands have opposite signs and `b` does not divide `a`; see the
counterexample). -/
theorem C3_theorem (a b : Int) (hb : b ≠ 0) :
    interpretBinary (.num a) (.num b) .rem = .ok (.num (a - b * truncQuot a b)) := by
  show Except.ok (Value.num (Int.tmod a b)) = _
  rw [← tdiv_eq_trunc a hb]
  have h := Int.tmod_add_tdiv a b
  congr 2
  linarith

theorem C3_witness :
    (2 : Int) ≠ 0
    ∧ interpretBinary (.num (-7)) (.num 2) .rem
        = .ok (.num (-7 - 2 * truncQuot (-7) 2)) :=
  ⟨by decide, C3_theorem (-7) 2 (by decide)⟩

/-- C4: for number operands with `b ≠ 0`, `Div` yields the floor
(round-toward-negative-infinity) of the real quotient; at `a = -7, b = 2` it
yields `-4`, not the truncation `-3`. -/
theorem C4_theorem :
    (∀ a b : Int, b ≠ 0 →
      interpretBinary (.num a) (.num b) .div = .ok (.num ⌊(a : ℚ) / (b : ℚ)⌋))
    ∧ interpretBinary (.num (-7)) (.num 2) .div = .ok (.num (-4))
    ∧ Int.tdiv (-7) 2 = -3
    ∧ ((-4 : Int) ≠ -3) := by
  refine ⟨?_, rfl, by decide, by decide⟩
  intro a b hb
  show Except.ok (Value.num (Int.fdiv a b)) = _
  rw [fdiv_eq_floor a hb]

theorem C4_witness :
    (2 : Int) ≠ 0
    ∧ interpretBinary (.num (-7)) (.num 2) .div
        = .ok (.num ⌊((-7 : Int) : ℚ) / ((2 : Int) : ℚ)⌋) :=
  ⟨by decide, C4_theorem.1 (-7) 2 (by decide)⟩

/-! ### Claim C6: `Eq` / `Neq` -/

/-- C6: `Eq`/`Neq` succeed (with a boolean result, `Neq` the negation of `Eq`)
exactly when both operands have the same kind among number, string, boolean;
`Eq` is reflexive and symmetric there; across kinds, or on a tuple or closure
operand, both fail with `TypeMismatch`. -/
theorem C6_theorem :
    (∀ v w : Value, sameScalarKind v w = true →
      ∃ b : Bool, interpretBinary v w .eq = .ok (.bool b)
        ∧ interpretBinary v w .neq = .ok (.bool (!b)))
    ∧ (∀ v : Value, sameScalarKind v v = true →
        interpretBinary v v .eq = .ok (.bool true))
    ∧ (∀ v w : Value, interpretBinary v w .eq = interpretBinary w v .eq)
    ∧ (∀ v w : Value, sameScalarKind v w = false →
        interpretBinary v w .eq = .error (.typeMismatch "number or string or boolean")
        ∧ interpretBinary v w .neq = .error (.typeMismatch "number or string or boolean")) := by
  refine ⟨?_, ?_, ?_, ?_⟩
  · intro v w h
    cases v <;> cases w <;> first
      | exact ⟨_, rfl, rfl⟩
      | simp [sameScalarKind] at h
  · intro v h
    cases v <;> first
      | (show Except.ok (Value.bool (_ == _)) = _
         rw [beq_self_eq_true])
      | simp [sameScalarKind] at h
  · intro v w
    cases v <;> cases w <;> first
      | rfl
      | (show Except.ok (Value.bool (_ == _)) = Except.ok (Value.bool (_ == _))
         rw [Bool.beq_comm])
  · intro v w h
    cases v <;> cases w <;> first
      | exact ⟨rfl, rfl⟩
      | simp [sameScalarKind] at h

theorem C6_witness :
    (∃ b : Bool, interpretBinary (.num 3) (.num 4) .eq = .ok (.bool b)
      ∧ interpretBinary (.num 3) (.num 4) .neq = .ok (.bool (!b)))
    ∧ interpretBinary (.str "a") (.str "a") .eq = .ok (.bool true)
    ∧ (interpretBinary (.num 1) (.bool true) .eq
          = .error (.typeMismatch "number or string or boolean")
        ∧ interpretBinary (.num 1) (.bool true) .neq
          = .error (.typeMismatch "number or string or boolean")) :=
  ⟨C6_theorem.1 (.num 3) (.num 4) rfl,
   C6_theorem.2.1 (.str "a") rfl,
   C6_theorem.2.2.2 (.num 1) (.bool true) rfl⟩

/-! ### Claim C9: `Add` -/

/-- The program `print("a" + 1)`. -/
def addCoerceProg : Term := .print (.binary (.str "a") .add (.int 1))

/-- C9: `Add` is the numeric sum on two numbers; otherwise both operands are
coerced to display text (numbers to decimal, strings to themselves) and
concatenated; a boolean, tuple or closure operand makes it fail with
`TypeMismatch`; end to end, `print("a" + 1)` prints the line `a1` and returns
the string `"a1"`. -/
theorem C9_theorem :
    (∀ a b : Int, interpretBinary (.num a) (.num b) .add = .ok (.num (a + b)))
    ∧ (∀ s t : String, interpretBinary (.str s) (.str t) .add = .ok (.str (s ++ t)))
    ∧ (∀ (s : String) (b : Int),
        interpretBinary (.str s) (.num b) .add = .ok (.str (s ++ toString b)))
    ∧ (∀ (a : Int) (t : String),
        interpretBinary (.num a) (.str t) .add = .ok (.str (toString a ++ t)))
    ∧ (∀ v w : Value, isAddOperand v = false ∨ isAddOperand w = false →
        interpretBinary v w .add = .error (.typeMismatch "string or int"))
    ∧ (interpretFile 5 addCoerceProg).1 = .ok (.str "a1")
    ∧ (interpretFile 5 addCoerceProg).2.output = ["a1"] := by
  refine ⟨fun a b => rfl, fun s t => rfl, fun s b => rfl, fun a t => rfl, ?_, rfl, rfl⟩
  intro v w h
  cases v <;> cases w <;> first
    | rfl
    | (rcases h with h | h <;> simp [isAddOperand] at h)

theorem C9_witness :
    (isAddOperand (.bool true) = false ∨ isAddOperand (.num 1) = false)
    ∧ interpretBinary (.bool true) (.num 1) .add = .error (.typeMismatch "string or int") :=
  ⟨Or.inl rfl, C9_theorem.2.2.2.2.1 (.bool true) (.num 1) (Or.inl rfl)⟩

/-! ### General facts about single evaluation steps -/

theorem assertBool_of_isBool_false (v : Value) (h : isBool v = false) :
    assertBool v = .error (.typeMismatch "closure") := by
  cases v <;> first | rfl | simp [isBool] at h

theorem assertClosure_of_isClosure_false (v : Value) (h : isClosure v = false) :
    assertClosure v = .error (.typeMismatch "closure") := by
  cases v <;> first | rfl | simp [isClosure] at h

theorem and_or_not_bool (v w : Value) (h : isBool v = false ∨ isBool w = false) :
    interpretBinary v w .and = .error (.typeMismatch "closure")
    ∧ interpretBinary v w .or = .error (.typeMismatch "closure") := by
  cases v <;> cases w <;> first
    | exact ⟨rfl, rfl⟩
    | (rcases h with h | h <;> simp [isBool] at h)

theorem binary_both_evaluated (fuel : Nat) (lhs rhs : Term) (op : BinaryOp)
    (env : Nat) (st st1 st2 : St) (v1 v2 : Value)
    (h1 : interpret fuel lhs env st = (.ok v1, st1))
    (h2 : interpret fuel rhs env st1 = (.ok v2, st2)) :
    interpret (fuel + 1) (.binary lhs op rhs) env st = (interpretBinary v1 v2 op, st2) := by
  rw [interpret_succ]
  simp only [interpretStep, h1, h2]

theorem if_cond_true (fuel : Nat) (c t e : Term) (env : Nat) (st st1 : St)
    (h : interpret fuel c env st = (.ok (.bool true), st1)) :
    interpret (fuel + 1) (.ifE c t e) env st = interpret fuel t env st1 := by
  rw [interpret_succ]
  simp [interpretStep, h, assertBool]

theorem if_cond_false (fuel : Nat) (c t e : Term) (env : Nat) (st st1 : St)
    (h : interpret fuel c env st = (.ok (.bool false), st1)) :
    interpret (fuel + 1) (.ifE c t e) env st = interpret fuel e env st1 := by
  rw [interpret_succ]
  simp [interpretStep, h, assertBool]

theorem if_cond_not_bool (fuel : Nat) (c t e : Term) (env : Nat) (st st1 : St)
    (v : Value) (h : interpret fuel c env st = (.ok v, st1)) (hv : isBool v = false) :
    interpret (fuel + 1) (.ifE c t e) env st = (.error (.typeMismatch "closure"), st1) := by
  rw [interpret_succ]
  simp only [interpretStep, h, assertBool_of_isBool_false v hv]

theorem let_mutates_clone (fuel : Nat) (n : String) (value next : Term) (env : Nat)
    (st st2 : St) (v : Value)
    (h : interpret fuel value (cloneEnv st env).1 (cloneEnv st env).2 = (.ok v, st2)) :
    interpret (fuel + 1) (.letE n value next) env st
      = interpret fuel next (cloneEnv st env).1 (setEnvKey st2 (cloneEnv st env).1 n v) := by
  rw [interpret_succ]
  simp only [interpretStep, cloneEnv] at h ⊢
  simp only [h]

theorem call_callee_not_closure (fuel : Nat) (callee : Term) (args : List Term)
    (env : Nat) (st st1 : St) (v : Value)
    (h : interpret fuel callee env st = (.ok v, st1)) (hv : isClosure v = false) :
    interpret (fuel + 1) (.call callee args) env st
      = (.error (.typeMismatch "closure"), st1) := by
  rw [interpret_succ]
  simp only [interpretStep, h, assertClosure_of_isClosure_false v hv]

theorem call_arity_mismatch (fuel : Nat) (callee : Term) (args : List Term)
    (env : Nat) (st st1 : St) (c : Closure)
    (h : interpret fuel callee env st = (.ok (.closure c), st1))
    (hlen : c.parameters.length ≠ args.length) :
    interpret (fuel + 1) (.call callee args) env st
      = (.error (.arityMismatch c.parameters.length args.length), st1) := by
  rw [interpret_succ]
  simp only [interpretStep, h, assertClosure]
  rw [if_pos hlen]

theorem call_binds_in_fresh_clone (fuel : Nat) (callee : Term) (args : List Term)
    (env : Nat) (st st1 : St) (c : Closure)
    (h : interpret fuel callee env st = (.ok (.closure c), st1))
    (hlen : c.parameters.length = args.length) :
    interpret (fuel + 1) (.call callee args) env st
      = (match bindArgs (interpret fuel) env (cloneEnv st1 c.env).1 c.parameters args
            (cloneEnv st1 c.env).2 with
        | (some err, st3) => (.error err, st3)
        | (none, st3) => interpret fuel c.body (cloneEnv st1 c.env).1 st3) := by
  rw [interpret_succ]
  simp only [interpretStep, h, assertClosure]
  rw [if_neg (by simp [hlen])]

/-! ### Example programs used by the claims -/

/-- "let f = fn (n) => if (n < 1) 42 else f(n - 1); f(1)" — a let-bound
function that calls itself by name. -/
def recProg : Term :=
  .letE "f"
    (.function ["n"]
      (.ifE (.binary (.var "n") .lt (.int 1)) (.int 42)
        (.call (.var "f") [.binary (.var "n") .sub (.int 1)])))
    (.call (.var "f") [.int 1])

/-- "let x = x; 0" — direct self-reference in the bound value. -/
def selfRefLetProg : Term := .letE "x" (.var "x") (.int 0)

/-- "let x = 1; let x = x + 1; x" — the bound value names the enclosing
binding of the same variable. -/
def shadowLetProg : Term :=
  .letE "x" (.int 1) (.letE "x" (.binary (.var "x") .add (.int 1)) (.var "x"))

/-- "let f = fn () => f; f()" — the closure body reads the very name bound by
the Let that was evaluating when the closure was created. -/
def selfReturnProg : Term := .letE "f" (.function [] (.var "f")) (.call (.var "f") [])

/-- "let x = 1; let f = fn (y) => x + y; let x = 100; f(2)" (spec §8). -/
def closureSnapshotProg : Term :=
  .letE "x" (.int 1)
    (.letE "f" (.function ["y"] (.binary (.var "x") .add (.var "y")))
      (.letE "x" (.int 100) (.call (.var "f") [.int 2])))

/-- "let x = 10; let f = fn (y) => y; let x = 5; f(x)" — the call argument
names a variable bound to a different value inside the closure's captured
environment. -/
def argShadowProg : Term :=
  .letE "x" (.int 10)
    (.letE "f" (.function ["y"] (.var "y"))
      (.letE "x" (.int 5) (.call (.var "f") [.var "x"])))

/-- "let f = fn (a, b) => a; f(1)" — a closure of arity 2 called with one
argument. -/
def arityProg : Term :=
  .letE "f" (.function ["a", "b"] (.var "a")) (.call (.var "f") [.int 1])

/-- "let x = 1; let f = fn (y) => x + y; f(2)" — captured binding plus
parameter binding. -/
def paramBindProg : Term :=
  .letE "x" (.int 1)
    (.letE "f" (.function ["y"] (.binary (.var "x") .add (.var "y")))
      (.call (.var "f") [.int 2]))

/-- "false && print(true)". -/
def andPrintProg : Term := .binary (.bool false) .and (.print (.bool true))

/-- "true || print(false)". -/
def orPrintProg : Term := .binary (.bool true) .or (.print (.bool false))

/-- "if (true) 1 else print(2)". -/
def ifTrueProg : Term := .ifE (.bool true) (.int 1) (.print (.int 2))

/-- "if (false) print(1) else 2". -/
def ifFalseProg : Term := .ifE (.bool false) (.print (.int 1)) (.int 2)

/-! ### Claim C1: self-reference in a `Let`-bound value -/

/-- C1 counterexample: the claim says a let-bound function cannot call itself
by name (the call would fail with `UnboundVariable`).  But in the source the
`Let` case installs the binding by mutating the very environment object the
bound value was evaluated in — the object the closure captured — so
`let f = fn (n) => if (n < 1) 42 else f(n - 1); f(1)` evaluates to `42`. -/
theorem C1_counterexample :
    (interpretFile 20 recProg).1 = .ok (.num 42)
    ∧ (interpretFile 20 recProg).1 ≠ .error (.unboundVariable "f") := by
  refine ⟨rfl, ?_⟩
  rw [show (interpretFile 20 recProg).1 = .ok (.num 42) from rfl]
  exact fun h => Except.noConfusion h

/-- C1 (amended): in `Let(name, value, next)`, `value` is evaluated in a clone
of the current environment taken before the binding for `name` is installed, so
a direct reference to `name` while evaluating `value` resolves to an enclosing
binding of `name`, or fails with `UnboundVariable` when there is none.  The
binding is then installed by mutating that same clone, which closures created
while evaluating `value` capture by reference — so a let-bound function CAN
call itself by name once the binding is installed. -/
theorem C1_theorem :
    (∀ fuel : Nat,
      (interpretFile (fuel + 2) selfRefLetProg).1 = .error (.unboundVariable "x"))
    ∧ (interpretFile 20 shadowLetProg).1 = .ok (.num 2)
    ∧ (interpretFile 25 recProg).1 = .ok (.num 42) :=
  ⟨fun _ => rfl, rfl, rfl⟩

theorem C1_witness :
    (interpretFile 5 selfRefLetProg).1 = .error (.unboundVariable "x") :=
  C1_theorem.1 3

/-! ### Claim C2: immutability of captured environments -/

/-- C2 counterexample: at the moment the `Function` literal of
`let f = fn () => f; f()` is evaluated (heap `[[], []]`, environment address
1), the captured environment object holds no binding for `f`; yet calling `f`
later evaluates the body `f` (there is no parameter binding) successfully to
the closure itself, because the `Let` case mutated the captured object in
place after the capture. -/
theorem C2_counterexample :
    interpret 1 (.function [] (.var "f")) 1 ⟨[[], []], []⟩
        = (.ok (.closure ⟨.var "f", [], 1⟩), ⟨[[], []], []⟩)
    ∧ recGet (getEnv ⟨[[], []], []⟩ 1) "f" = none
    ∧ (interpretFile 10 selfReturnProg).1 = .ok (.closure ⟨.var "f", [], 1⟩)
    ∧ (interpretFile 10 selfReturnProg).1 ≠ .error (.unboundVariable "f") := by
  refine ⟨rfl, rfl, rfl, ?_⟩
  rw [show (interpretFile 10 selfReturnProg).1 = .ok (.closure ⟨.var "f", [], 1⟩) from rfl]
  exact fun h => Except.noConfusion h

/-- C2 (amended): extending an environment always happens on a freshly
allocated clone (`cloneEnv` returns the address `heap.length`, and the clone
initially holds the same mapping), so bindings introduced by later `Let`s or
calls never affect an existing closure — end to end,
`let x = 1; let f = fn (y) => x + y; let x = 100; f(2)` still yields `3`.  The
one exception the code makes to "never changed afterwards" is the `Let` case
itself: it installs its binding by mutating (`setEnvKey`) the same clone
address in which `value` was just evaluated, so closures created during that
evaluation observe the one new binding. -/
theorem C2_theorem :
    (∀ (st : St) (env : Nat),
      (cloneEnv st env).1 = st.heap.length
      ∧ getEnv (cloneEnv st env).2 (cloneEnv st env).1 = getEnv st env)
    ∧ (∀ (fuel : Nat) (n : String) (value next : Term) (env : Nat) (st st2 : St) (v : Value),
        interpret fuel value (cloneEnv st env).1 (cloneEnv st env).2 = (.ok v, st2) →
        interpret (fuel + 1) (.letE n value next) env st
          = interpret fuel next (cloneEnv st env).1 (setEnvKey st2 (cloneEnv st env).1 n v))
    ∧ (interpretFile 20 closureSnapshotProg).1 = .ok (.num 3) := by
  refine ⟨?_, ?_, rfl⟩
  · intro st env
    refine ⟨rfl, ?_⟩
    show (st.heap ++ [getEnv st env]).getD st.heap.length [] = getEnv st env
    simp [List.getD]
  · intro fuel n value next env st st2 v h
    exact let_mutates_clone fuel n value next env st st2 v h

theorem C2_witness :
    interpret 1 (.int 7) (cloneEnv ⟨[[]], []⟩ 0).1 (cloneEnv ⟨[[]], []⟩ 0).2
        = (.ok (.num 7), ⟨[[], []], []⟩)
    ∧ interpret 2 (.letE "y" (.int 7) (.var "y")) 0 ⟨[[]], []⟩
        = interpret 1 (.var "y") (cloneEnv ⟨[[]], []⟩ 0).1
            (setEnvKey ⟨[[], []], []⟩ (cloneEnv ⟨[[]], []⟩ 0).1 "y" (.num 7)) :=
  ⟨rfl, C2_theorem.2.1 1 "y" (.int 7) (.var "y") 0 ⟨[[]], []⟩ ⟨[[], []], []⟩ (.num 7) rfl⟩

/-! ### Claim C5: the `Call` protocol -/

/-- C5: a `Call` evaluates the callee first and requires a closure (else
`TypeMismatch`); requires the argument count to equal the parameter count
(else `ArityMismatch(expected, actual)`); evaluates the arguments in the
caller's environment; and evaluates the body in a fresh copy of the closure's
captured environment extended with the parameters bound in order.  End to end:
an argument naming a variable shadowed inside the captured environment uses
the caller's binding (`argShadowProg` yields `5`, not `10`); the body sees the
captured binding plus the parameter (`paramBindProg` yields `3`); arity 2
called with 1 argument fails with `ArityMismatch(2,1)`. -/
theorem C5_theorem :
    (∀ (fuel : Nat) (callee : Term) (args : List Term) (env : Nat) (st st1 : St) (v : Value),
      interpret fuel callee env st = (.ok v, st1) → isClosure v = false →
      interpret (fuel + 1) (.call callee args) env st
        = (.error (.typeMismatch "closure"), st1))
    ∧ (∀ (fuel : Nat) (callee : Term) (args : List Term) (env : Nat) (st st1 : St) (c : Closure),
        interpret fuel callee env st = (.ok (.closure c), st1) →
        c.parameters.length ≠ args.length →
        interpret (fuel + 1) (.call callee args) env st
          = (.error (.arityMismatch c.parameters.length args.length), st1))
    ∧ (∀ (fuel : Nat) (callee : Term) (args : List Term) (env : Nat) (st st1 : St) (c : Closure),
        interpret fuel callee env st = (.ok (.closure c), st1) →
        c.parameters.length = args.length →
        interpret (fuel + 1) (.call callee args) env st
          = (match bindArgs (interpret fuel) env (cloneEnv st1 c.env).1 c.parameters args
                (cloneEnv st1 c.env).2 with
            | (some err, st3) => (.error err, st3)
            | (none, st3) => interpret fuel c.body (cloneEnv st1 c.env).1 st3))
    ∧ (interpretFile 20 argShadowProg).1 = .ok (.num 5)
    ∧ (interpretFile 20 paramBindProg).1 = .ok (.num 3)
    ∧ (interpretFile 20 arityProg).1 = .error (.arityMismatch 2 1)
    ∧ errorMessage (.arityMismatch 2 1) = "expected 2 arguments but instead got 1" :=
  ⟨call_callee_not_closure, call_arity_mismatch, call_binds_in_fresh_clone,
   rfl, rfl, rfl, rfl⟩

theorem C5_witness :
    interpret 2 (.call (.int 0) []) 0 ⟨[[]], []⟩
        = (.error (.typeMismatch "closure"), ⟨[[]], []⟩)
    ∧ interpret 2 (.call (.function ["a", "b"] (.var "a")) [.int 1]) 0 ⟨[[]], []⟩
        = (.error (.arityMismatch 2 1), ⟨[[]], []⟩)
    ∧ interpret 2 (.call (.function ["y"] (.var "y")) [.int 1]) 0 ⟨[[]], []⟩
        = interpret 1 (.var "y") 1 ⟨[[], [("y", Value.num 1)]], []⟩ :=
  ⟨C5_theorem.1 1 (.int 0) [] 0 ⟨[[]], []⟩ ⟨[[]], []⟩ (.num 0) rfl rfl,
   C5_theorem.2.1 1 (.function ["a", "b"] (.var "a")) [.int 1] 0 ⟨[[]], []⟩ ⟨[[]], []⟩
     ⟨.var "a", ["a", "b"], 0⟩ rfl (by decide),
   C5_theorem.2.2.1 1 (.function ["y"] (.var "y")) [.int 1] 0 ⟨[[]], []⟩ ⟨[[]], []⟩
     ⟨.var "y", ["y"], 0⟩ rfl rfl⟩

/-! ### Claim C7: `And` / `Or` evaluate both operands -/

/-- C7: a `Binary` node evaluates its left operand, then its right operand,
and only then applies the operator — `And`/`Or` included, so they do not
short-circuit: `false && print(true)` prints the line `true` and yields
`false`, and `true || print(false)` prints the line `false` and yields `true`;
a non-boolean operand makes `And`/`Or` fail with `TypeMismatch`. -/
theorem C7_theorem :
    (∀ (fuel : Nat) (lhs rhs : Term) (op : BinaryOp) (env : Nat) (st st1 st2 : St)
        (v1 v2 : Value),
      interpret fuel lhs env st = (.ok v1, st1) →
      interpret fuel rhs env st1 = (.ok v2, st2) →
      interpret (fuel + 1) (.binary lhs op rhs) env st = (interpretBinary v1 v2 op, st2))
    ∧ (interpretFile 5 andPrintProg).1 = .ok (.bool false)
    ∧ (interpretFile 5 andPrintProg).2.output = ["true"]
    ∧ (interpretFile 5 orPrintProg).1 = .ok (.bool true)
    ∧ (interpretFile 5 orPrintProg).2.output = ["false"]
    ∧ (∀ v w : Value, isBool v = false ∨ isBool w = false →
        interpretBinary v w .and = .error (.typeMismatch "closure")
        ∧ interpretBinary v w .or = .error (.typeMismatch "closure")) :=
  ⟨binary_both_evaluated, rfl, rfl, rfl, rfl, and_or_not_bool⟩

theorem C7_witness :
    interpret 3 (.binary (.bool false) .and (.print (.bool true))) 0 ⟨[[]], []⟩
        = (interpretBinary (.bool false) (.bool true) .and, ⟨[[]], ["true"]⟩)
    ∧ interpretBinary (.num 1) (.bool true) .and = .error (.typeMismatch "closure") :=
  ⟨C7_theorem.1 2 (.bool false) (.print (.bool true)) .and 0 ⟨[[]], []⟩ ⟨[[]], []⟩
     ⟨[[]], ["true"]⟩ (.bool false) (.bool true) rfl rfl,
   (C7_theorem.2.2.2.2.2 (.num 1) (.bool true) (Or.inl rfl)).1⟩

/-! ### Claim C8: `If` evaluates exactly one branch -/

/-- C8: an `If` node evaluates its condition, requires a boolean (else
`TypeMismatch`), and then evaluates exactly the taken branch — the result and
final state are those of interpreting the chosen branch alone, so a `Print` in
the untaken branch produces no output (`ifTrueProg` yields `1` with no output,
`ifFalseProg` yields `2` with no output). -/
theorem C8_theorem :
    (∀ (fuel : Nat) (c t e : Term) (env : Nat) (st st1 : St),
      interpret fuel c env st = (.ok (.bool true), st1) →
      interpret (fuel + 1) (.ifE c t e) env st = interpret fuel t env st1)
    ∧ (∀ (fuel : Nat) (c t e : Term) (env : Nat) (st st1 : St),
        interpret fuel c env st = (.ok (.bool false), st1) →
        interpret (fuel + 1) (.ifE c t e) env st = interpret fuel e env st1)
    ∧ (∀ (fuel : Nat) (c t e : Term) (env : Nat) (st st1 : St) (v : Value),
        interpret fuel c env st = (.ok v, st1) → isBool v = false →
        interpret (fuel + 1) (.ifE c t e) env st
          = (.error (.typeMismatch "closure"), st1))
    ∧ (interpretFile 5 ifTrueProg).1 = .ok (.num 1)
    ∧ (interpretFile 5 ifTrueProg).2.output = []
    ∧ (interpretFile 5 ifFalseProg).1 = .ok (.num 2)
    ∧ (interpretFile 5 ifFalseProg).2.output = [] := by
  refine ⟨?_, ?_, ?_, rfl, rfl, rfl, rfl⟩
  · intro fuel c t e env st st1 h
    exact if_cond_true fuel c t e env st st1 h
  · intro fuel c t e env st st1 h
    exact if_cond_false fuel c t e env st st1 h
  · intro fuel c t e env st st1 v h hv
    exact if_cond_not_bool fuel c t e env st st1 v h hv

theorem C8_witness :
    interpret 2 (.ifE (.bool true) (.int 1) (.print (.int 2))) 0 ⟨[[]], []⟩
        = interpret 1 (.int 1) 0 ⟨[[]], []⟩
    ∧ interpret 2 (.ifE (.int 0) (.int 1) (.int 2)) 0 ⟨[[]], []⟩
        = (.error (.typeMismatch "closure"), ⟨[[]], []⟩) :=
  ⟨C8_theorem.1 1 (.bool true) (.int 1) (.print (.int 2)) 0 ⟨[[]], []⟩ ⟨[[]], []⟩ rfl,
   C8_theorem.2.2.1 1 (.int 0) (.int 1) (.int 2) 0 ⟨[[]], []⟩ ⟨[[]], []⟩ (.num 0) rfl rfl⟩

/-! ### Claim C10: the "not a closure" message for boolean requirements -/

/-- C10: everywhere a boolean is required — the condition of `If` and both
operands of `And`/`Or` — a non-boolean value raises the `TypeMismatch` whose
expected-kind description is `"closure"`, i.e. the thrown message is
`not a closure`, because `assertBool` passes the string `"closure"` to
`typeMismatch`. -/
theorem C10_theorem :
    (∀ v : Value, isBool v = false → assertBool v = .error (.typeMismatch "closure"))
    ∧ errorMessage (.typeMismatch "closure") = "not a closure"
    ∧ (∀ (fuel : Nat) (c t e : Term) (env : Nat) (st st1 : St) (v : Value),
        interpret fuel c env st = (.ok v, st1) → isBool v = false →
        interpret (fuel + 1) (.ifE c t e) env st
          = (.error (.typeMismatch "closure"), st1))
    ∧ (∀ v w : Value, isBool v = false ∨ isBool w = false →
        interpretBinary v w .and = .error (.typeMismatch "closure")
        ∧ interpretBinary v w .or = .error (.typeMismatch "closure")) := by
  refine ⟨assertBool_of_isBool_false, rfl, ?_, and_or_not_bool⟩
  intro fuel c t e env st st1 v h hv
  exact if_cond_not_bool fuel c t e env st st1 v h hv

theorem C10_witness :
    assertBool (.num 1) = .error (.typeMismatch "closure")
    ∧ interpret 2 (.ifE (.str "x") (.int 1) (.int 2)) 0 ⟨[[]], []⟩
        = (.error (.typeMismatch "closure"), ⟨[[]], []⟩)
    ∧ interpretBinary (.bool true) (.num 0) .or = .error (.typeMismatch "closure") :=
  ⟨C10_theorem.1 (.num 1) rfl,
   C10_theorem.2.2.1 1 (.str "x") (.int 1) (.int 2) 0 ⟨[[]], []⟩ ⟨[[]], []⟩ (.str "x") rfl rfl,
   (C10_theorem.2.2.2 (.bool true) (.num 0) (Or.inr rfl)).2⟩

end Rinha
